import Mathlib

/-!
Shallow embedding of the kubebuilder-helm scaffolding templates and their
marker-based code-injection logic, together with proofs about fragment
selection, existence policies and the webhook scaffolder orchestration.

The embedding follows these source files:
- plugins/golang/v4/scaffolds/internal/templates/main.go (Main, MainUpdater)
- the api types template (Types)
- the Helm chart .helmignore template (HelmIgnore)
- the helm webhook scaffolder (webhookScaffolder)
-/

set_option maxRecDepth 16384

namespace KubebuilderHelm

/-! Go standard-library helpers used by the templates, specialized to the
call sites appearing in the source. -/

/-- Model of Go fmt.Sprintf restricted to the verb %s, the only verb the
template code uses: each %s in the format consumes the next argument. -/
def substFmt : List Char → List String → List Char
  | '%' :: 's' :: rest, a :: args => a.data ++ substFmt rest args
  | c :: rest, args => c :: substFmt rest args
  | [], _ => []

/-- Go fmt.Sprintf over a format string and its %s arguments. -/
def sprintf (fmt : String) (args : List String) : String := ⟨substFmt fmt.data args⟩

theorem data_append (s t : String) : (s ++ t).data = s.data ++ t.data := by
  cases s; cases t; rfl

/-- Model of Go strings.ReplaceAll specialized to the only pattern the
source uses: every occurrence of "internal/controller" is replaced by
"controllers". -/
def replaceICAux : List Char → List Char
  | 'i' :: 'n' :: 't' :: 'e' :: 'r' :: 'n' :: 'a' :: 'l' :: '/' :: 'c' :: 'o' :: 'n' :: 't' :: 'r' :: 'o' :: 'l' :: 'l' :: 'e' :: 'r' :: rest =>
      "controllers".data ++ replaceICAux rest
  | c :: rest => c :: replaceICAux rest
  | [] => []

/-- Go strings.ReplaceAll(s, "internal/controller", "controllers"). -/
def replaceInternalController (s : String) : String := ⟨replaceICAux s.data⟩

/-- Model of Go path/filepath.Join: empty elements are skipped and the
remaining ones joined with the separator (the Clean step is a no-op for
every pattern the source joins, so it is not modelled). -/
def filepathJoin (elems : List String) : String :=
  String.intercalate "/" (elems.filter (fun s => ¬s = ""))

/-! Machinery collaborator model (the sigs.k8s.io/kubebuilder machinery
package the templates implement interfaces of). -/

/-- Existence policy of a template builder (machinery.IfExistsAction). -/
inductive IfExistsAction where
  | SkipFile
  | OverwriteFile
  | Error
  deriving DecidableEq

/-- A marker is identified by the owning file path and its symbolic name
(machinery.Marker as produced by machinery.NewMarkerFor). -/
structure Marker where
  path : String
  name : String
  deriving DecidableEq

/-- machinery.NewMarkerFor builds the marker for a file path and name. -/
def NewMarkerFor (path name : String) : Marker := ⟨path, name⟩

/-- Modelled from the spec: the marker sentinel is rendered into the file
as a line whose text is a fixed prefix plus the owning path and marker
name, embedded as a line comment (the exact machinery formatting code is
not part of this repository). -/
def Marker.text (m : Marker) : String :=
  "//+kubebuilder:scaffold:" ++ m.path ++ ":" ++ m.name

/-- Lookup in a code-fragments map (machinery.CodeFragmentsMap), modelled
as an association list from markers to fragment lists. -/
def fragmentsFor (frags : List (Marker × List String)) (m : Marker) : Option (List String) :=
  match frags with
  | [] => none
  | (k, v) :: rest => if k = m then some v else fragmentsFor rest m

/-! Resource descriptor (pkg/model/resource of kubebuilder, consumed by
the templates as an opaque descriptor; its derived naming fields are
carried as plain data). -/

/-- The resource descriptor: group/version/kind, the import path of the
api package, and the derived import alias and package name. -/
structure Resource where
  Group : String
  Version : String
  Kind : String
  Path : String
  ImportAlias : String
  PackageName : String
  deriving DecidableEq

/-- Modelled from the spec: the placeholder-substitution function of the
resource descriptor (Resource.Replacer in the external resource model); a
single left-to-right pass over the pattern replaces each placeholder with
the corresponding descriptor field, the kind lower-cased for the
filesystem-safe form. -/
def replacerAux (r : Resource) : List Char → List Char
  | '%' :: '[' :: 'g' :: 'r' :: 'o' :: 'u' :: 'p' :: ']' :: rest =>
      r.Group.data ++ replacerAux r rest
  | '%' :: '[' :: 'v' :: 'e' :: 'r' :: 's' :: 'i' :: 'o' :: 'n' :: ']' :: rest =>
      r.Version.data ++ replacerAux r rest
  | '%' :: '[' :: 'k' :: 'i' :: 'n' :: 'd' :: ']' :: rest =>
      r.Kind.toLower.data ++ replacerAux r rest
  | c :: rest => c :: replacerAux r rest
  | [] => []

/-- Modelled from the spec: Resource.Replacer().Replace(s). -/
def Resource.replacerReplace (r : Resource) (s : String) : String := ⟨replacerAux r s.data⟩

/-! Embedding of plugins/golang/v4/scaffolds/internal/templates/main.go. -/

def defaultMainPath : String := "cmd/main.go"

def defaultLegacyLayoutMainPath : String := "main.go"

/-- Main scaffolds the file that defines the controller manager entry
point. Mixin fields are inlined (TemplateMixin gives Path and
TemplateBody; BoilerplateMixin, DomainMixin and RepositoryMixin give
Boilerplate, Domain and Repo). -/
structure Main where
  Path : String
  TemplateBody : String
  Boilerplate : String
  Domain : String
  Repo : String
  IsLegacyLayout : Bool

def importMarker : String := "imports"

def addSchemeMarker : String := "scheme"

def setupMarker : String := "builder"

def mainTemplate : String :=
  "\x7b\x7b .Boilerplate \x7d\x7d\n\npackage main\n\nimport (\n\t\"flag\"\n\t\"os\"\n\n\t// Import all Kubernetes client auth plugins (e.g. Azure, GCP, OIDC, etc.)\n\t// to ensure that exec-entrypoint and run can make use of them.\n\t_ \"k8s.io/client-go/plugin/pkg/client/auth\"\n\n\t\"k8s.io/apimachinery/pkg/runtime\"\n\tutilruntime \"k8s.io/apimachinery/pkg/util/runtime\"\n\tclientgoscheme \"k8s.io/client-go/kubernetes/scheme\"\n\tctrl \"sigs.k8s.io/controller-runtime\"\n\t\"sigs.k8s.io/controller-runtime/pkg/log/zap\"\n\t\"sigs.k8s.io/controller-runtime/pkg/healthz\"\n\t%s\n\tutilcontroller \"github.com/labring/operator-sdk/controller\"\n)\n\nvar (\n\tscheme = runtime.NewScheme()\n\tsetupLog = ctrl.Log.WithName(\"setup\")\n)\n\nfunc init() \x7b\n\tutilruntime.Must(clientgoscheme.AddToScheme(scheme))\n\n\t%s\n\x7d\n\nfunc main() \x7b\n\tvar (\n\t\tmetricsAddr          string\n\t\tenableLeaderElection bool\n\t\tprobeAddr            string\n\t\tconcurrent           int\n\t\trateLimiterOptions   utilcontroller.RateLimiterOptions\n\t)\n\tflag.StringVar(&metricsAddr, \"metrics-bind-address\", \":8080\", \"The address the metric endpoint binds to.\")\n\tflag.StringVar(&probeAddr, \"health-probe-bind-address\", \":8081\", \"The address the probe endpoint binds to.\")\n\tflag.BoolVar(&enableLeaderElection, \"leader-elect\", false,\n\t\t\"Enable leader election for controller manager. \" +\n\t\t\"Enabling this will ensure there is only one active controller manager.\")\n\tflag.IntVar(&concurrent, \"concurrent\", 5, \"The number of concurrent cluster reconciles.\")\n\trateLimiterOptions.BindFlags(flag.CommandLine)\n\topts := zap.Options\x7b\n\t\tDevelopment: true,\n\t\x7d\n\topts.BindFlags(flag.CommandLine)\n\tflag.Parse()\n\n\tctrl.SetLogger(zap.New(zap.UseFlagOptions(&opts)))\n\n\tmgr, err := ctrl.NewManager(ctrl.GetConfigOrDie(), ctrl.Options\x7b\n\t\tScheme:                 scheme,\n\t\tMetricsBindAddress:     metricsAddr,\n\t\tPort:                   9443,\n\t\tHealthProbeBindAddress: probeAddr,\n\t\tLeaderElection:         enableLeaderElection,\n\t\tLeaderElectionID:       \"\x7b\x7b hashFNV .Repo \x7d\x7d.\x7b\x7b .Domain \x7d\x7d\",\n\t\t// LeaderElectionReleaseOnCancel defines if the leader should step down voluntarily\n\t\t// when the Manager ends. This requires the binary to immediately end when the\n\t\t// Manager is stopped, otherwise, this setting is unsafe. Setting this significantly\n\t\t// speeds up voluntary leader transitions as the new leader don\x27t have to wait\n\t\t// LeaseDuration time first.\n\t\t//\n\t\t// In the default scaffold provided, the program ends immediately after \n\t\t// the manager stops, so would be fine to enable this option. However, \n\t\t// if you are doing or is intended to do any operation such as perform cleanups \n\t\t// after the manager stops then its usage might be unsafe.\n\t\t// LeaderElectionReleaseOnCancel: true,\n\t\x7d)\n\tif err != nil \x7b\n\t\tsetupLog.Error(err, \"unable to start manager\")\n\t\tos.Exit(1)\n\t\x7d\n\t\n\t%s\n\t\n\tif err := mgr.AddHealthzCheck(\"healthz\", healthz.Ping); err != nil \x7b\n\t\tsetupLog.Error(err, \"unable to set up health check\")\n\t\tos.Exit(1)\n\t\x7d\n\tif err := mgr.AddReadyzCheck(\"readyz\", healthz.Ping); err != nil \x7b\n\t\tsetupLog.Error(err, \"unable to set up ready check\")\n\t\tos.Exit(1)\n\t\x7d\n\n\tsetupLog.Info(\"starting manager\")\n\tif err := mgr.Start(ctrl.SetupSignalHandler()); err != nil \x7b\n\t\tsetupLog.Error(err, \"problem running manager\")\n\t\tos.Exit(1)\n\t\x7d\n\x7d\n"

/-- Main.SetTemplateDefaults: defaults the path by layout and renders the
three marker sentinels into the template body (the Go method always
returns a nil error, so the updated value is returned directly). -/
def Main.SetTemplateDefaults (f : Main) : Main :=
  let path :=
    if f.Path = "" then
      if f.IsLegacyLayout then filepathJoin [defaultLegacyLayoutMainPath]
      else filepathJoin [defaultMainPath]
    else f.Path
  { f with
    Path := path
    TemplateBody :=
      sprintf mainTemplate
        [(NewMarkerFor path importMarker).text,
         (NewMarkerFor path addSchemeMarker).text,
         (NewMarkerFor path setupMarker).text] }

/-- The markers Main.SetTemplateDefaults embeds into the template body, in
placeholder order. -/
def Main.scaffoldMarkers (f : Main) : List Marker :=
  let path :=
    if f.Path = "" then
      if f.IsLegacyLayout then filepathJoin [defaultLegacyLayoutMainPath]
      else filepathJoin [defaultMainPath]
    else f.Path
  [NewMarkerFor path importMarker,
   NewMarkerFor path addSchemeMarker,
   NewMarkerFor path setupMarker]

/-- MainUpdater updates cmd/main.go to run Controllers. Mixin fields are
inlined (RepositoryMixin gives Repo, MultiGroupMixin gives MultiGroup,
ResourceMixin gives the possibly-nil Resource pointer). -/
structure MainUpdater where
  Repo : String
  MultiGroup : Bool
  Resource : Option Resource
  WireResource : Bool
  WireController : Bool
  WireWebhook : Bool
  IsLegacyLayout : Bool

/-- MainUpdater.GetPath. -/
def MainUpdater.GetPath (f : MainUpdater) : String :=
  if f.IsLegacyLayout then defaultLegacyLayoutMainPath else defaultMainPath

/-- MainUpdater.GetIfExistsAction. -/
def MainUpdater.GetIfExistsAction (_ : MainUpdater) : IfExistsAction :=
  IfExistsAction.OverwriteFile

/-- MainUpdater.GetMarkers. -/
def MainUpdater.GetMarkers (f : MainUpdater) : List Marker :=
  [NewMarkerFor f.GetPath importMarker,
   NewMarkerFor f.GetPath addSchemeMarker,
   NewMarkerFor f.GetPath setupMarker]

def apiImportCodeFragment : String :=
  "%s \"%s\"\n"

def controllerImportCodeFragment : String :=
  "\"%s/internal/controller\"\n"

def multiGroupControllerImportCodeFragment : String :=
  "%scontroller \"%s/internal/controller/%s\"\n"

def addschemeCodeFragment : String :=
  "utilruntime.Must(%s.AddToScheme(scheme))\n"

def reconcilerSetupCodeFragment : String :=
  "if err = (&controller.%sReconciler\x7b\n\t\tMaxConcurrentReconciles: concurrent,\n\t\tRateLimiter: utilcontroller.GetRateLimiter(rateLimiterOptions),\n\t\x7d).SetupWithManager(mgr); err != nil \x7b\n\t\tsetupLog.Error(err, \"unable to create controller\", \"controller\", \"%s\")\n\t\tos.Exit(1)\n\t\x7d\n"

def multiGroupReconcilerSetupCodeFragment : String :=
  "if err = (&%scontroller.%sReconciler\x7b\n\t\tMaxConcurrentReconciles: concurrent,\n\t\tRateLimiter: utilcontroller.GetRateLimiter(rateLimiterOptions),\n\t\x7d).SetupWithManager(mgr); err != nil \x7b\n\t\tsetupLog.Error(err, \"unable to create controller\", \"controller\", \"%s\")\n\t\tos.Exit(1)\n\t\x7d\n"

def webhookSetupCodeFragment : String :=
  "if os.Getenv(\"DISABLE_WEBHOOKS\") != \"true\" \x7b\n\t\tif err = (&%s.%s\x7b\x7d).SetupWebhookWithManager(mgr); err != nil \x7b\n\t\t\tsetupLog.Error(err, \"unable to create webhook\", \"webhook\", \"%s\")\n\t\t\tos.Exit(1)\n\t\t\x7delse\x7b\n\t\t\tsetupLog.Info(\"webhook disable\", \"webhook\", \"%s\")\n\t\t\x7d\n\t\x7d\n"

/-- MainUpdater.GetCodeFragments: builds the import, scheme and setup
fragment lists gated by the wiring flags and stores each non-empty list
under its marker. -/
def MainUpdater.GetCodeFragments (f : MainUpdater) : List (Marker × List String) :=
  match f.Resource with
  | none => []
  | some res =>
    let imports : List String :=
      (if f.WireResource then
        [sprintf apiImportCodeFragment [res.ImportAlias, res.Path]]
      else []) ++
      (if f.WireController then
        (if !f.MultiGroup || res.Group == "" then
          (if f.IsLegacyLayout then
            [sprintf (replaceInternalController controllerImportCodeFragment) [f.Repo]]
          else
            [sprintf controllerImportCodeFragment [f.Repo]])
        else
          (if f.IsLegacyLayout then
            [sprintf (replaceInternalController multiGroupControllerImportCodeFragment)
              [res.PackageName, f.Repo, res.Group]]
          else
            [sprintf multiGroupControllerImportCodeFragment
              [res.PackageName, f.Repo, res.Group]]))
      else [])
    let addScheme : List String :=
      if f.WireResource then
        [sprintf addschemeCodeFragment [res.ImportAlias]]
      else []
    let setup : List String :=
      (if f.WireController then
        (if !f.MultiGroup || res.Group == "" then
          [sprintf reconcilerSetupCodeFragment [res.Kind, res.Kind]]
        else
          [sprintf multiGroupReconcilerSetupCodeFragment [res.PackageName, res.Kind, res.Kind]])
      else []) ++
      (if f.WireWebhook then
        [sprintf webhookSetupCodeFragment [res.ImportAlias, res.Kind, res.Kind, res.Kind]]
      else [])
    (if imports.length ≠ 0 then [(NewMarkerFor f.GetPath importMarker, imports)] else []) ++
    (if addScheme.length ≠ 0 then [(NewMarkerFor f.GetPath addSchemeMarker, addScheme)] else []) ++
    (if setup.length ≠ 0 then [(NewMarkerFor f.GetPath setupMarker, setup)] else [])

/-! Embedding of the api Types template (the file that defines the schema
for a CRD). -/

def typesTemplate : String :=
  "\x7b\x7b .Boilerplate \x7d\x7d\n\npackage \x7b\x7b .Resource.Version \x7d\x7d\n\nimport (\n\tmetav1 \"k8s.io/apimachinery/pkg/apis/meta/v1\"\n)\n\n// EDIT THIS FILE!  THIS IS SCAFFOLDING FOR YOU TO OWN!\n// NOTE: json tags are required.  Any new fields you add must have json tags for the fields to be serialized.\n\n// \x7b\x7b .Resource.Kind \x7d\x7dSpec defines the desired state of \x7b\x7b .Resource.Kind \x7d\x7d\ntype \x7b\x7b .Resource.Kind \x7d\x7dSpec struct \x7b\n\t// INSERT ADDITIONAL SPEC FIELDS - desired state of cluster\n\t// Important: Run \"make\" to regenerate code after modifying this file\n\n\t// Foo is an example field of \x7b\x7b .Resource.Kind \x7d\x7d. Edit \x7b\x7b lower .Resource.Kind \x7d\x7d_types.go to remove/update\n\tFoo string \x60json:\"foo,omitempty\"\x60\n\x7d\n\ntype \x7b\x7b .Resource.Kind \x7d\x7dPhase string\n\n// These are the valid phases of node.\nconst (\n\t\x7b\x7b .Resource.Kind \x7d\x7dPending \x7b\x7b .Resource.Kind \x7d\x7dPhase = \"Pending\"\n\t\x7b\x7b .Resource.Kind \x7d\x7dUnknown \x7b\x7b .Resource.Kind \x7d\x7dPhase = \"Unknown\"\n\t\x7b\x7b .Resource.Kind \x7d\x7dActive  \x7b\x7b .Resource.Kind \x7d\x7dPhase = \"Active\"\n)\n\n// \x7b\x7b .Resource.Kind \x7d\x7dStatus defines the observed state of \x7b\x7b .Resource.Kind \x7d\x7d\ntype \x7b\x7b .Resource.Kind \x7d\x7dStatus struct \x7b\n\t// Phase represents the current phase of \x7b\x7b .Resource.Kind \x7d\x7d.\n\t//+kubebuilder:default:=Unknown\n\tPhase \x7b\x7b .Resource.Kind \x7d\x7dPhase \x60json:\"phase,omitempty\"\x60\n\t// Represents the observations of a \x7b\x7b .Resource.Kind \x7d\x7d\x27s current state.\n\t// \x7b\x7b .Resource.Kind \x7d\x7d.status.conditions.type are: \"Available\", \"Progressing\", and \"Degraded\"\n\t// \x7b\x7b .Resource.Kind \x7d\x7d.status.conditions.status are one of True, False, Unknown.\n\t// \x7b\x7b .Resource.Kind \x7d\x7d.status.conditions.reason the value should be a CamelCase string and producers of specific\n\t// condition types may define expected values and meanings for this field, and whether the values\n\t// are considered a guaranteed API.\n\t// \x7b\x7b .Resource.Kind \x7d\x7d.status.conditions.Message is a human readable message indicating details about the transition.\n\t// For further information see: https://github.com/kubernetes/community/blob/master/contributors/devel/sig-architecture/api-conventions.md#typical-status-properties\n\n\tConditions []metav1.Condition \x60json:\"conditions,omitempty\" patchStrategy:\"merge\" patchMergeKey:\"type\" protobuf:\"bytes,1,rep,name=conditions\"\x60\n\x7d\n\n//+kubebuilder:object:root=true\n//+kubebuilder:subresource:status\n\x7b\x7b- if and (not .Resource.API.Namespaced) (not .Resource.IsRegularPlural) \x7d\x7d\n//+kubebuilder:resource:path=\x7b\x7b .Resource.Plural \x7d\x7d,scope=Cluster\n\x7b\x7b- else if not .Resource.API.Namespaced \x7d\x7d\n//+kubebuilder:resource:scope=Cluster\n\x7b\x7b- else if not .Resource.IsRegularPlural \x7d\x7d\n//+kubebuilder:resource:path=\x7b\x7b .Resource.Plural \x7d\x7d\n\x7b\x7b- end \x7d\x7d\n\n// \x7b\x7b .Resource.Kind \x7d\x7d is the Schema for the \x7b\x7b .Resource.Plural \x7d\x7d API\ntype \x7b\x7b .Resource.Kind \x7d\x7d struct \x7b\n\tmetav1.TypeMeta   \x60json:\",inline\"\x60\n\tmetav1.ObjectMeta \x60json:\"metadata,omitempty\"\x60\n\n\tSpec   \x7b\x7b .Resource.Kind \x7d\x7dSpec   \x60json:\"spec,omitempty\"\x60\n\tStatus \x7b\x7b .Resource.Kind \x7d\x7dStatus \x60json:\"status,omitempty\"\x60\n\x7d\n\n//+kubebuilder:object:root=true\n\n// \x7b\x7b .Resource.Kind \x7d\x7dList contains a list of \x7b\x7b .Resource.Kind \x7d\x7d\ntype \x7b\x7b .Resource.Kind \x7d\x7dList struct \x7b\n\tmetav1.TypeMeta \x60json:\",inline\"\x60\n\tmetav1.ListMeta \x60json:\"metadata,omitempty\"\x60\n\tItems           []\x7b\x7b .Resource.Kind \x7d\x7d \x60json:\"items\"\x60\n\x7d\n\nfunc init() \x7b\n\tSchemeBuilder.Register(&\x7b\x7b .Resource.Kind \x7d\x7d\x7b\x7d, &\x7b\x7b .Resource.Kind \x7d\x7dList\x7b\x7d)\n\x7d\n"

/-- Types scaffolds the file that defines the schema for a CRD. Mixin
fields are inlined (TemplateMixin gives Path, TemplateBody and
IfExistsAction; MultiGroupMixin gives MultiGroup; ResourceMixin gives the
resource descriptor). -/
structure Types where
  Path : String
  TemplateBody : String
  IfExistsAction : IfExistsAction
  MultiGroup : Bool
  Resource : Resource
  Force : Bool

/-- Types.SetTemplateDefaults: defaults the path pattern by grouping mode,
resolves it through the resource replacer, installs the template body and
sets the existence policy from Force (the Go method also prints the path
and always returns a nil error; both effects are irrelevant here). -/
def Types.SetTemplateDefaults (f : Types) : Types :=
  let path :=
    if f.Path = "" then
      if f.MultiGroup && !(f.Resource.Group == "") then
        filepathJoin ["api", "%[group]", "%[version]", "%[kind]_types.go"]
      else
        filepathJoin ["api", "%[version]", "%[kind]_types.go"]
    else f.Path
  { f with
    Path := f.Resource.replacerReplace path
    TemplateBody := typesTemplate
    IfExistsAction := if f.Force then IfExistsAction.OverwriteFile else IfExistsAction.Error }

/-! Embedding of the Helm chart .helmignore template. -/

def helmIgnoreTemplate : String :=
  "# Patterns to ignore when building packages.\n# This supports shell glob matching, relative path matching, and\n# negation (prefixed with !). Only one pattern per line.\n.DS_Store\n# Common VCS dirs\n.git/\n.gitignore\n.bzr/\n.bzrignore\n.hg/\n.hgignore\n.svn/\n# Common backup files\n*.swp\n*.bak\n*.tmp\n*.orig\n*~\n# Various IDEs\n.project\n.idea/\n*.tmproj\n.vscode/\n\n"

/-- HelmIgnore scaffolds the .helmignore file of the chart. Mixin fields
are inlined (TemplateMixin gives Path, TemplateBody and IfExistsAction;
ProjectNameMixin gives ProjectName). -/
structure HelmIgnore where
  Path : String
  TemplateBody : String
  IfExistsAction : IfExistsAction
  ProjectName : String
  Force : Bool

/-- HelmIgnore.SetTemplateDefaults: defaults the path, installs the
template body and sets the existence policy from Force (skip on an
existing file unless forced). -/
def HelmIgnore.SetTemplateDefaults (f : HelmIgnore) : HelmIgnore :=
  let path :=
    if f.Path = "" then
      filepathJoin ["config", "charts", f.ProjectName, ".helmignore"]
    else f.Path
  { f with
    Path := path
    TemplateBody := helmIgnoreTemplate
    IfExistsAction := if f.Force then IfExistsAction.OverwriteFile else IfExistsAction.SkipFile }

/-! Embedding of the helm webhook scaffolder (package scaffolds). -/

/-- The template builders the webhook scaffolder passes to the machinery
Scaffold.Execute call, with their force/enable flags. -/
inductive WebhookBuilder where
  | Helpers (Force WebhookEnabled : Bool)
  | WebhookCertManagerCheck (Force : Bool)
  | WebhookService (Force : Bool)
  | WebhookCertificate (Force : Bool)
  deriving DecidableEq

/-- The builder list webhookScaffolder.Scaffold hands to Execute, in
source order. -/
def webhookBuilders (force : Bool) : List WebhookBuilder :=
  [WebhookBuilder.Helpers true true,
   WebhookBuilder.WebhookCertManagerCheck force,
   WebhookBuilder.WebhookService force,
   WebhookBuilder.WebhookCertificate force]

/-- One run of the webhook scaffolder: the outcomes of its two external
collaborator calls (config.UpdateResource and machinery
Scaffold.Execute, none meaning success) together with the force flag of
the scaffolder. -/
structure WebhookScaffolderRun where
  updateResourceError : Option String
  executeError : List WebhookBuilder → Option String
  force : Bool

/-- webhookScaffolder.Scaffold: updates the resource in the configuration,
then executes the four builders; the first failure aborts the run. The
second component records the builder list handed to Execute (empty when
Execute was never invoked, i.e. no builder was executed). -/
def WebhookScaffolderRun.Scaffold (s : WebhookScaffolderRun) :
    Except String Unit × List WebhookBuilder :=
  match s.updateResourceError with
  | some e => (Except.error ("error updating resource: " ++ e), [])
  | none =>
    let builders := webhookBuilders s.force
    match s.executeError builders with
    | some e => (Except.error ("error scaffolding helm webhook manifests: " ++ e), builders)
    | none => (Except.ok (), builders)

/-! Expected fragment texts, written out as plain concatenations following
the wording of the specification, to be compared with what the formatting
code produces. -/

/-- Expected nested single-group controller import. -/
def controllerImportText (repo : String) : String :=
  "\"" ++ repo ++ "/internal/controller\"\n"

/-- Expected legacy single-group controller import. -/
def legacyControllerImportText (repo : String) : String :=
  "\"" ++ repo ++ "/controllers\"\n"

/-- Expected nested multi-group controller import. -/
def multiGroupControllerImportText (pkg repo group : String) : String :=
  pkg ++ "controller \"" ++ repo ++ "/internal/controller/" ++ group ++ "\"\n"

/-- Expected legacy multi-group controller import. -/
def legacyMultiGroupControllerImportText (pkg repo group : String) : String :=
  pkg ++ "controller \"" ++ repo ++ "/controllers/" ++ group ++ "\"\n"

/-- Expected single-group reconciler setup fragment. -/
def reconcilerSetupText (kind : String) : String :=
  "if err = (&controller." ++ kind ++ "Reconciler\x7b\n\t\tMaxConcurrentReconciles: concurrent,\n\t\tRateLimiter: utilcontroller.GetRateLimiter(rateLimiterOptions),\n\t\x7d).SetupWithManager(mgr); err != nil \x7b\n\t\tsetupLog.Error(err, \"unable to create controller\", \"controller\", \"" ++ kind ++ "\")\n\t\tos.Exit(1)\n\t\x7d\n"

/-- Expected multi-group reconciler setup fragment. -/
def multiGroupReconcilerSetupText (pkg kind : String) : String :=
  "if err = (&" ++ pkg ++ "controller." ++ kind ++ "Reconciler\x7b\n\t\tMaxConcurrentReconciles: concurrent,\n\t\tRateLimiter: utilcontroller.GetRateLimiter(rateLimiterOptions),\n\t\x7d).SetupWithManager(mgr); err != nil \x7b\n\t\tsetupLog.Error(err, \"unable to create controller\", \"controller\", \"" ++ kind ++ "\")\n\t\tos.Exit(1)\n\t\x7d\n"

/-- Expected webhook setup fragment, a function of the import alias and
kind only. -/
def webhookSetupText (importAlias kind : String) : String :=
  "if os.Getenv(\"DISABLE_WEBHOOKS\") != \"true\" \x7b\n\t\tif err = (&" ++ importAlias ++ "." ++ kind ++ "\x7b\x7d).SetupWebhookWithManager(mgr); err != nil \x7b\n\t\t\tsetupLog.Error(err, \"unable to create webhook\", \"webhook\", \"" ++ kind ++ "\")\n\t\t\tos.Exit(1)\n\t\t\x7delse\x7b\n\t\t\tsetupLog.Info(\"webhook disable\", \"webhook\", \"" ++ kind ++ "\")\n\t\t\x7d\n\t\x7d\n"

/-! Sample values used by the witness theorems. -/

def sampleResource : Resource :=
  { Group := "crew"
    Version := "v1"
    Kind := "Captain"
    Path := "example.com/project/api/v1"
    ImportAlias := "crewv1"
    PackageName := "crew" }

def sampleUpdater : MainUpdater :=
  { Repo := "example.com/project"
    MultiGroup := false
    Resource := some sampleResource
    WireResource := true
    WireController := true
    WireWebhook := true
    IsLegacyLayout := false }

def sampleUpdaterNoWebhook : MainUpdater :=
  { sampleUpdater with WireWebhook := false }

def sampleUpdaterNoWires : MainUpdater :=
  { sampleUpdater with WireResource := false, WireController := false, WireWebhook := false }

def sampleUpdaterLegacy : MainUpdater :=
  { sampleUpdater with IsLegacyLayout := true, MultiGroup := true }

def sampleTypes (force : Bool) : Types :=
  { Path := ""
    TemplateBody := ""
    IfExistsAction := IfExistsAction.SkipFile
    MultiGroup := false
    Resource := sampleResource
    Force := force }

def sampleHelmIgnore (force : Bool) : HelmIgnore :=
  { Path := ""
    TemplateBody := ""
    IfExistsAction := IfExistsAction.SkipFile
    ProjectName := "project"
    Force := force }

def sampleRunUpdateFailure : WebhookScaffolderRun :=
  { updateResourceError := some "conflict"
    executeError := fun _ => none
    force := false }

/-! Evaluation lemmas relating the formatted fragments to their expected
plain-concatenation texts. -/

theorem sprintf_ctrl_import (repo : String) :
    sprintf controllerImportCodeFragment [repo] = controllerImportText repo := by
  apply String.ext
  simp [sprintf, substFmt, controllerImportCodeFragment, controllerImportText, data_append]

theorem replace_ctrl_import_eval :
    replaceInternalController controllerImportCodeFragment = "\"%s/controllers\"\n" := rfl

theorem sprintf_legacy_ctrl_import (repo : String) :
    sprintf (replaceInternalController controllerImportCodeFragment) [repo] =
      legacyControllerImportText repo := by
  rw [replace_ctrl_import_eval]
  apply String.ext
  simp [sprintf, substFmt, legacyControllerImportText, data_append]

theorem sprintf_mg_import (pkg repo group : String) :
    sprintf multiGroupControllerImportCodeFragment [pkg, repo, group] =
      multiGroupControllerImportText pkg repo group := by
  apply String.ext
  simp [sprintf, substFmt, multiGroupControllerImportCodeFragment,
    multiGroupControllerImportText, data_append]

theorem replace_mg_import_eval :
    replaceInternalController multiGroupControllerImportCodeFragment =
      "%scontroller \"%s/controllers/%s\"\n" := rfl

theorem sprintf_legacy_mg_import (pkg repo group : String) :
    sprintf (replaceInternalController multiGroupControllerImportCodeFragment) [pkg, repo, group] =
      legacyMultiGroupControllerImportText pkg repo group := by
  rw [replace_mg_import_eval]
  apply String.ext
  simp [sprintf, substFmt, legacyMultiGroupControllerImportText, data_append]

theorem sprintf_reconciler (kind : String) :
    sprintf reconcilerSetupCodeFragment [kind, kind] = reconcilerSetupText kind := by
  apply String.ext
  simp [sprintf, substFmt, reconcilerSetupCodeFragment, reconcilerSetupText, data_append]

theorem sprintf_mg_reconciler (pkg kind : String) :
    sprintf multiGroupReconcilerSetupCodeFragment [pkg, kind, kind] =
      multiGroupReconcilerSetupText pkg kind := by
  apply String.ext
  simp [sprintf, substFmt, multiGroupReconcilerSetupCodeFragment,
    multiGroupReconcilerSetupText, data_append]

theorem sprintf_webhook (importAlias kind : String) :
    sprintf webhookSetupCodeFragment [importAlias, kind, kind, kind] =
      webhookSetupText importAlias kind := by
  apply String.ext
  simp [sprintf, substFmt, webhookSetupCodeFragment, webhookSetupText, data_append]

theorem webhook_ne_reconciler (importAlias kind kind2 : String) :
    webhookSetupText importAlias kind ≠ reconcilerSetupText kind2 := by
  rw [← sprintf_webhook, ← sprintf_reconciler]
  intro h
  have hd := congrArg String.data h
  simp [sprintf, substFmt, webhookSetupCodeFragment, reconcilerSetupCodeFragment] at hd

theorem webhook_ne_mg_reconciler (importAlias kind pkg kind2 : String) :
    webhookSetupText importAlias kind ≠ multiGroupReconcilerSetupText pkg kind2 := by
  rw [← sprintf_webhook, ← sprintf_mg_reconciler]
  intro h
  have hd := congrArg String.data h
  simp [sprintf, substFmt, webhookSetupCodeFragment, multiGroupReconcilerSetupCodeFragment] at hd

/-- The last fragment GetCodeFragments registers for a marker, when the
marker has an entry. -/
def lastFragmentFor (f : MainUpdater) (m : Marker) : Option String :=
  match fragmentsFor f.GetCodeFragments m with
  | none => none
  | some l => l.getLast?

/-! Claim theorems. -/

/-- C10: for every MainUpdater, regardless of its flags, GetIfExistsAction
returns OverwriteFile, so the injector target is always rewritten and
never produces a skip or a file-conflict error. -/
theorem main_updater_always_overwrite (f : MainUpdater) :
    f.GetIfExistsAction = IfExistsAction.OverwriteFile := rfl

/-- C6: SetTemplateDefaults sets IfExistsAction to OverwriteFile when
Force is true, both for Types and for HelmIgnore; with Force false, Types
sets Error and HelmIgnore sets SkipFile. -/
theorem force_if_exists_action (t : Types) (hi : HelmIgnore) :
    ((t.Force = true → (t.SetTemplateDefaults).IfExistsAction = IfExistsAction.OverwriteFile) ∧
     (t.Force = false → (t.SetTemplateDefaults).IfExistsAction = IfExistsAction.Error)) ∧
    ((hi.Force = true → (hi.SetTemplateDefaults).IfExistsAction = IfExistsAction.OverwriteFile) ∧
     (hi.Force = false → (hi.SetTemplateDefaults).IfExistsAction = IfExistsAction.SkipFile)) := by
  refine ⟨⟨fun h => ?_, fun h => ?_⟩, ⟨fun h => ?_, fun h => ?_⟩⟩ <;>
    simp [Types.SetTemplateDefaults, HelmIgnore.SetTemplateDefaults, h]

theorem force_if_exists_action_witness :
    ((sampleTypes true).SetTemplateDefaults).IfExistsAction = IfExistsAction.OverwriteFile ∧
    ((sampleTypes false).SetTemplateDefaults).IfExistsAction = IfExistsAction.Error ∧
    ((sampleHelmIgnore true).SetTemplateDefaults).IfExistsAction = IfExistsAction.OverwriteFile ∧
    ((sampleHelmIgnore false).SetTemplateDefaults).IfExistsAction = IfExistsAction.SkipFile :=
  ⟨(force_if_exists_action (sampleTypes true) (sampleHelmIgnore true)).1.1 rfl,
   (force_if_exists_action (sampleTypes false) (sampleHelmIgnore false)).1.2 rfl,
   (force_if_exists_action (sampleTypes true) (sampleHelmIgnore true)).2.1 rfl,
   (force_if_exists_action (sampleTypes false) (sampleHelmIgnore false)).2.2 rfl⟩

/-- C8: webhookScaffolder.Scaffold is fail-fast: a failing
config.UpdateResource yields an error naming the cause with Execute never
invoked (no builder executed); a failing Execute yields an error wrapping
the failure; with both steps succeeding the run returns success. The
builder list handed to Execute always has the four builders. -/
theorem webhook_scaffold_fail_fast (s : WebhookScaffolderRun) :
    (∀ e, s.updateResourceError = some e →
      s.Scaffold = (Except.error ("error updating resource: " ++ e), [])) ∧
    (s.updateResourceError = none →
      ∀ e, s.executeError (webhookBuilders s.force) = some e →
        s.Scaffold =
          (Except.error ("error scaffolding helm webhook manifests: " ++ e),
           webhookBuilders s.force)) ∧
    (s.updateResourceError = none → s.executeError (webhookBuilders s.force) = none →
      s.Scaffold = (Except.ok (), webhookBuilders s.force)) ∧
    (webhookBuilders s.force).length = 4 := by
  refine ⟨fun e he => ?_, fun hu e he => ?_, fun hu he => ?_, by simp [webhookBuilders]⟩ <;>
    simp [WebhookScaffolderRun.Scaffold, *]

theorem webhook_scaffold_fail_fast_witness :
    sampleRunUpdateFailure.Scaffold =
      (Except.error ("error updating resource: " ++ "conflict"), []) :=
  (webhook_scaffold_fail_fast sampleRunUpdateFailure).1 "conflict" rfl

theorem join_main_eval : filepathJoin [defaultMainPath] = defaultMainPath := rfl

theorem join_legacy_main_eval :
    filepathJoin [defaultLegacyLayoutMainPath] = defaultLegacyLayoutMainPath := rfl

theorem join_types_single_eval :
    filepathJoin ["api", "%[version]", "%[kind]_types.go"] =
      "api/%[version]/%[kind]_types.go" := rfl

theorem join_types_group_eval :
    filepathJoin ["api", "%[group]", "%[version]", "%[kind]_types.go"] =
      "api/%[group]/%[version]/%[kind]_types.go" := rfl

/-- C5: with an initially empty Path, Types.SetTemplateDefaults resolves
the path to api/version/kind_types.go (the group segment omitted
entirely) when MultiGroup is false or the resource group is empty, and to
api/group/version/kind_types.go otherwise. -/
theorem types_path_group_segment (f : Types) (hpath : f.Path = "") :
    (f.SetTemplateDefaults).Path =
      if f.MultiGroup = false ∨ f.Resource.Group = "" then
        "api/" ++ f.Resource.Version ++ "/" ++ f.Resource.Kind.toLower ++ "_types.go"
      else
        "api/" ++ f.Resource.Group ++ "/" ++ f.Resource.Version ++ "/" ++
          f.Resource.Kind.toLower ++ "_types.go" := by
  obtain ⟨P, TB, A, MG, r, F⟩ := f
  dsimp only at hpath ⊢
  subst hpath
  have hsingle : Resource.replacerReplace r "api/%[version]/%[kind]_types.go" =
      "api/" ++ r.Version ++ "/" ++ r.Kind.toLower ++ "_types.go" := by
    apply String.ext
    simp only [Resource.replacerReplace, data_append, List.append_assoc, List.cons_append,
      List.nil_append]
    rfl
  have hgroup : Resource.replacerReplace r "api/%[group]/%[version]/%[kind]_types.go" =
      "api/" ++ r.Group ++ "/" ++ r.Version ++ "/" ++ r.Kind.toLower ++ "_types.go" := by
    apply String.ext
    simp only [Resource.replacerReplace, data_append, List.append_assoc, List.cons_append,
      List.nil_append]
    rfl
  cases MG <;> by_cases hg : r.Group = "" <;>
    simp [Types.SetTemplateDefaults, hg, join_types_single_eval, join_types_group_eval,
      hsingle, hgroup]

theorem types_path_group_segment_witness :
    ((sampleTypes false).SetTemplateDefaults).Path =
      if (sampleTypes false).MultiGroup = false ∨ (sampleTypes false).Resource.Group = "" then
        "api/" ++ (sampleTypes false).Resource.Version ++ "/" ++
          (sampleTypes false).Resource.Kind.toLower ++ "_types.go"
      else
        "api/" ++ (sampleTypes false).Resource.Group ++ "/" ++
          (sampleTypes false).Resource.Version ++ "/" ++
          (sampleTypes false).Resource.Kind.toLower ++ "_types.go" :=
  types_path_group_segment (sampleTypes false) rfl

/-- C9: for either IsLegacyLayout value, the three markers
MainUpdater.GetMarkers declares are exactly the three markers
Main.SetTemplateDefaults embeds into a freshly scaffolded main file with
the same layout flag and a defaulted empty Path, they are pairwise
distinct, and the scaffolded template body interpolates precisely their
sentinel texts. -/
theorem main_markers_match_template (f : Main) (u : MainUpdater)
    (hpath : f.Path = "") (hlay : f.IsLegacyLayout = u.IsLegacyLayout) :
    f.scaffoldMarkers = u.GetMarkers ∧
    u.GetMarkers.Nodup ∧
    (f.SetTemplateDefaults).TemplateBody =
      sprintf mainTemplate (u.GetMarkers.map Marker.text) := by
  cases hu : u.IsLegacyLayout <;>
    · rw [hu] at hlay
      refine ⟨?_, by simp [MainUpdater.GetMarkers, MainUpdater.GetPath, NewMarkerFor, hu,
        importMarker, addSchemeMarker, setupMarker], ?_⟩ <;>
        simp [Main.scaffoldMarkers, Main.SetTemplateDefaults, MainUpdater.GetMarkers,
          MainUpdater.GetPath, hpath, hlay, hu, join_main_eval, join_legacy_main_eval]

/-- C1: with a non-nil Resource and WireController set, GetCodeFragments
produces the controller import fragment in the variant matching the
(IsLegacyLayout, MultiGroup) combination: the nested single-group (or
empty-group) variant imports Repo/internal/controller, the nested
multi-group variant imports Repo/internal/controller/Group behind the
PackageName-controller alias, and the legacy variants replace the
internal/controller path segment by controllers. -/
theorem controller_import_four_variants (f : MainUpdater) (r : Resource)
    (hres : f.Resource = some r) (hc : f.WireController = true) :
    lastFragmentFor f (NewMarkerFor f.GetPath importMarker) =
      some (if f.MultiGroup = false ∨ r.Group = "" then
              (if f.IsLegacyLayout then legacyControllerImportText f.Repo
               else controllerImportText f.Repo)
            else
              (if f.IsLegacyLayout then
                legacyMultiGroupControllerImportText r.PackageName f.Repo r.Group
               else multiGroupControllerImportText r.PackageName f.Repo r.Group)) := by
  cases hwr : f.WireResource <;> cases hmg : f.MultiGroup <;> cases hll : f.IsLegacyLayout <;>
    by_cases hg : r.Group = "" <;>
      simp [lastFragmentFor, MainUpdater.GetCodeFragments, MainUpdater.GetPath, fragmentsFor,
        NewMarkerFor, importMarker, addSchemeMarker, setupMarker, hres, hc, hwr, hmg, hll, hg,
        sprintf_ctrl_import, sprintf_legacy_ctrl_import, sprintf_mg_import,
        sprintf_legacy_mg_import]

theorem controller_import_four_variants_witness :
    lastFragmentFor sampleUpdater (NewMarkerFor sampleUpdater.GetPath importMarker) =
      some (if sampleUpdater.MultiGroup = false ∨ sampleResource.Group = "" then
              (if sampleUpdater.IsLegacyLayout then
                legacyControllerImportText sampleUpdater.Repo
               else controllerImportText sampleUpdater.Repo)
            else
              (if sampleUpdater.IsLegacyLayout then
                legacyMultiGroupControllerImportText sampleResource.PackageName
                  sampleUpdater.Repo sampleResource.Group
               else multiGroupControllerImportText sampleResource.PackageName
                  sampleUpdater.Repo sampleResource.Group)) :=
  controller_import_four_variants sampleUpdater sampleResource rfl rfl

/-- C2: with a non-nil Resource and both WireController and WireWebhook
set, the fragment list registered for the builder (setup) marker has
exactly two fragments, the reconciler setup first and the webhook setup
second, i.e. registration order is preserved. -/
theorem builder_fragments_registration_order (f : MainUpdater) (r : Resource)
    (hres : f.Resource = some r) (hc : f.WireController = true) (hw : f.WireWebhook = true) :
    fragmentsFor f.GetCodeFragments (NewMarkerFor f.GetPath setupMarker) =
      some [if f.MultiGroup = false ∨ r.Group = "" then reconcilerSetupText r.Kind
            else multiGroupReconcilerSetupText r.PackageName r.Kind,
            webhookSetupText r.ImportAlias r.Kind] := by
  cases hwr : f.WireResource <;> cases hmg : f.MultiGroup <;> cases hll : f.IsLegacyLayout <;>
    by_cases hg : r.Group = "" <;>
      simp [MainUpdater.GetCodeFragments, MainUpdater.GetPath, fragmentsFor,
        NewMarkerFor, importMarker, addSchemeMarker, setupMarker, hres, hc, hw, hwr, hmg, hll, hg,
        sprintf_reconciler, sprintf_mg_reconciler, sprintf_webhook]

theorem builder_fragments_registration_order_witness :
    fragmentsFor sampleUpdater.GetCodeFragments
        (NewMarkerFor sampleUpdater.GetPath setupMarker) =
      some [if sampleUpdater.MultiGroup = false ∨ sampleResource.Group = "" then
              reconcilerSetupText sampleResource.Kind
            else multiGroupReconcilerSetupText sampleResource.PackageName sampleResource.Kind,
            webhookSetupText sampleResource.ImportAlias sampleResource.Kind] :=
  builder_fragments_registration_order sampleUpdater sampleResource rfl rfl rfl

/-- C3: with a non-nil Resource, WireController set and WireWebhook
unset, the fragment list for the builder (setup) marker is exactly the
reconciler setup fragment and contains no webhook setup fragment. -/
theorem builder_fragments_webhook_disabled (f : MainUpdater) (r : Resource)
    (hres : f.Resource = some r) (hc : f.WireController = true) (hw : f.WireWebhook = false) :
    fragmentsFor f.GetCodeFragments (NewMarkerFor f.GetPath setupMarker) =
      some [if f.MultiGroup = false ∨ r.Group = "" then reconcilerSetupText r.Kind
            else multiGroupReconcilerSetupText r.PackageName r.Kind] ∧
    (∀ l, fragmentsFor f.GetCodeFragments (NewMarkerFor f.GetPath setupMarker) = some l →
      ∀ importAlias kind, webhookSetupText importAlias kind ∉ l) := by
  have hmain : fragmentsFor f.GetCodeFragments (NewMarkerFor f.GetPath setupMarker) =
      some [if f.MultiGroup = false ∨ r.Group = "" then reconcilerSetupText r.Kind
            else multiGroupReconcilerSetupText r.PackageName r.Kind] := by
    cases hwr : f.WireResource <;> cases hmg : f.MultiGroup <;> cases hll : f.IsLegacyLayout <;>
      by_cases hg : r.Group = "" <;>
        simp [MainUpdater.GetCodeFragments, MainUpdater.GetPath, fragmentsFor,
          NewMarkerFor, importMarker, addSchemeMarker, setupMarker, hres, hc, hw, hwr, hmg, hll,
          hg, sprintf_reconciler, sprintf_mg_reconciler]
  refine ⟨hmain, fun l hl importAlias kind hmem => ?_⟩
  rw [hmain] at hl
  obtain rfl : [if f.MultiGroup = false ∨ r.Group = "" then reconcilerSetupText r.Kind
      else multiGroupReconcilerSetupText r.PackageName r.Kind] = l := by
    injection hl
  rcases List.mem_singleton.mp hmem with h
  by_cases hcond : f.MultiGroup = false ∨ r.Group = ""
  · rw [if_pos hcond] at h
    exact webhook_ne_reconciler importAlias kind r.Kind h
  · rw [if_neg hcond] at h
    exact webhook_ne_mg_reconciler importAlias kind r.PackageName r.Kind h

theorem builder_fragments_webhook_disabled_witness :
    fragmentsFor sampleUpdaterNoWebhook.GetCodeFragments
        (NewMarkerFor sampleUpdaterNoWebhook.GetPath setupMarker) =
      some [if sampleUpdaterNoWebhook.MultiGroup = false ∨ sampleResource.Group = "" then
              reconcilerSetupText sampleResource.Kind
            else multiGroupReconcilerSetupText sampleResource.PackageName sampleResource.Kind] ∧
    (∀ l, fragmentsFor sampleUpdaterNoWebhook.GetCodeFragments
        (NewMarkerFor sampleUpdaterNoWebhook.GetPath setupMarker) = some l →
      ∀ importAlias kind, webhookSetupText importAlias kind ∉ l) :=
  builder_fragments_webhook_disabled sampleUpdaterNoWebhook sampleResource rfl rfl rfl

/-- C4: when every emission flag gating a marker is false, or Resource is
nil, GetCodeFragments has no entry for that marker: WireResource and
WireController gate the imports marker, WireResource gates the scheme
marker, WireController and WireWebhook gate the builder marker, and a nil
Resource empties the whole map. -/
theorem disabled_concern_no_entry (f : MainUpdater) :
    ((f.WireResource = false ∧ f.WireController = false) ∨ f.Resource = none →
      fragmentsFor f.GetCodeFragments (NewMarkerFor f.GetPath importMarker) = none) ∧
    (f.WireResource = false ∨ f.Resource = none →
      fragmentsFor f.GetCodeFragments (NewMarkerFor f.GetPath addSchemeMarker) = none) ∧
    ((f.WireController = false ∧ f.WireWebhook = false) ∨ f.Resource = none →
      fragmentsFor f.GetCodeFragments (NewMarkerFor f.GetPath setupMarker) = none) := by
  refine ⟨?_, ?_, ?_⟩ <;> rintro (h | hnil)
  · obtain ⟨h1, h2⟩ := h
    cases hr : f.Resource with
    | none => simp [MainUpdater.GetCodeFragments, fragmentsFor, hr]
    | some r =>
      cases hww : f.WireWebhook <;>
        simp [MainUpdater.GetCodeFragments, MainUpdater.GetPath, fragmentsFor, NewMarkerFor,
          importMarker, addSchemeMarker, setupMarker, hr, h1, h2, hww]
  · simp [MainUpdater.GetCodeFragments, fragmentsFor, hnil]
  · cases hr : f.Resource with
    | none => simp [MainUpdater.GetCodeFragments, fragmentsFor, hr]
    | some r =>
      cases hwc : f.WireController <;> cases hww : f.WireWebhook <;>
        cases hmg : f.MultiGroup <;> cases hll : f.IsLegacyLayout <;>
          by_cases hg : r.Group = "" <;>
            simp [MainUpdater.GetCodeFragments, MainUpdater.GetPath, fragmentsFor, NewMarkerFor,
              importMarker, addSchemeMarker, setupMarker, hr, h, hwc, hww, hmg, hll, hg]
  · simp [MainUpdater.GetCodeFragments, fragmentsFor, hnil]
  · obtain ⟨h1, h2⟩ := h
    cases hr : f.Resource with
    | none => simp [MainUpdater.GetCodeFragments, fragmentsFor, hr]
    | some r =>
      cases hwr : f.WireResource <;> cases hmg : f.MultiGroup <;> cases hll : f.IsLegacyLayout <;>
        by_cases hg : r.Group = "" <;>
          simp [MainUpdater.GetCodeFragments, MainUpdater.GetPath, fragmentsFor, NewMarkerFor,
            importMarker, addSchemeMarker, setupMarker, hr, h1, h2, hwr, hmg, hll, hg]
  · simp [MainUpdater.GetCodeFragments, fragmentsFor, hnil]

theorem disabled_concern_no_entry_witness :
    fragmentsFor sampleUpdaterNoWires.GetCodeFragments
        (NewMarkerFor sampleUpdaterNoWires.GetPath importMarker) = none ∧
    fragmentsFor sampleUpdaterNoWires.GetCodeFragments
        (NewMarkerFor sampleUpdaterNoWires.GetPath addSchemeMarker) = none ∧
    fragmentsFor sampleUpdaterNoWires.GetCodeFragments
        (NewMarkerFor sampleUpdaterNoWires.GetPath setupMarker) = none :=
  ⟨(disabled_concern_no_entry sampleUpdaterNoWires).1 (Or.inl ⟨rfl, rfl⟩),
   (disabled_concern_no_entry sampleUpdaterNoWires).2.1 (Or.inl rfl),
   (disabled_concern_no_entry sampleUpdaterNoWires).2.2 (Or.inl ⟨rfl, rfl⟩)⟩

theorem setup_last_webhook (f : MainUpdater) (r : Resource)
    (hres : f.Resource = some r) (hw : f.WireWebhook = true) :
    lastFragmentFor f (NewMarkerFor f.GetPath setupMarker) =
      some (webhookSetupText r.ImportAlias r.Kind) := by
  cases hwr : f.WireResource <;> cases hwc : f.WireController <;> cases hmg : f.MultiGroup <;>
    cases hll : f.IsLegacyLayout <;> by_cases hg : r.Group = "" <;>
      simp [lastFragmentFor, MainUpdater.GetCodeFragments, MainUpdater.GetPath, fragmentsFor,
        NewMarkerFor, importMarker, addSchemeMarker, setupMarker, hres, hw, hwr, hwc, hmg, hll,
        hg, sprintf_webhook]

/-- C7: with a non-nil Resource and WireWebhook set, the webhook setup
fragment (the last fragment of the builder marker) is the same text for
any two updaters sharing that resource, whatever their MultiGroup and
IsLegacyLayout flags; it depends only on the import alias and Kind of the
resource. -/
theorem webhook_fragment_flag_independent (f g : MainUpdater) (r : Resource)
    (hf : f.Resource = some r) (hg : g.Resource = some r)
    (hfw : f.WireWebhook = true) (hgw : g.WireWebhook = true) :
    lastFragmentFor f (NewMarkerFor f.GetPath setupMarker) =
      some (webhookSetupText r.ImportAlias r.Kind) ∧
    lastFragmentFor g (NewMarkerFor g.GetPath setupMarker) =
      lastFragmentFor f (NewMarkerFor f.GetPath setupMarker) :=
  ⟨setup_last_webhook f r hf hfw,
   (setup_last_webhook g r hg hgw).trans (setup_last_webhook f r hf hfw).symm⟩

theorem webhook_fragment_flag_independent_witness :
    lastFragmentFor sampleUpdater (NewMarkerFor sampleUpdater.GetPath setupMarker) =
      some (webhookSetupText sampleResource.ImportAlias sampleResource.Kind) ∧
    lastFragmentFor sampleUpdaterLegacy
        (NewMarkerFor sampleUpdaterLegacy.GetPath setupMarker) =
      lastFragmentFor sampleUpdater (NewMarkerFor sampleUpdater.GetPath setupMarker) :=
  webhook_fragment_flag_independent sampleUpdater sampleUpdaterLegacy sampleResource
    rfl rfl rfl rfl

theorem main_markers_match_template_witness :
    (Main.mk "" "" "" "" "" false).scaffoldMarkers = sampleUpdater.GetMarkers ∧
    sampleUpdater.GetMarkers.Nodup ∧
    ((Main.mk "" "" "" "" "" false).SetTemplateDefaults).TemplateBody =
      sprintf mainTemplate (sampleUpdater.GetMarkers.map Marker.text) :=
  main_markers_match_template (Main.mk "" "" "" "" "" false) sampleUpdater rfl rfl
